import Mathlib

/-!
Shallow embedding of `src/js/vnext/layout/table-view.js` (projection-grid).

Pixel quantities are modelled as rationals (`ℚ`), matching the arbitrary
sub-pixel values browsers report; DOM `clientWidth`/`offsetWidth` readings,
which are integral, are modelled as `Int`.
-/

namespace ProjectionGrid

/-- JS values, at the granularity the header-config normalizer
(`_normalizeHeaderConfig`, lines 59-80) distinguishes them:
strings, numbers (with a finiteness flag: `num false v` stands for
`NaN`/`±Infinity`), zero-argument functions (modelled by the value they
return when invoked), objects (only their `type`/`offset` properties matter
to this code; `none` = property absent), and the remaining primitives
`undefined`, `null`, booleans. -/
inductive JSValue : Type where
  | undefined : JSValue
  | null : JSValue
  | bool (b : Bool) : JSValue
  | num (finite : Bool) (v : ℚ) : JSValue
  | str (s : String) : JSValue
  | func (ret : JSValue) : JSValue
  | obj (type offset : Option JSValue) : JSValue

/-- underscore's `_.isString`. -/
def isString : JSValue → Bool
  | .str _ => true
  | _ => false

/-- underscore's `_.isFunction`. -/
def isFunction : JSValue → Bool
  | .func _ => true
  | _ => false

/-- JS whitespace stripped by `Number(string)` and `parseFloat` before
parsing (space, tab, line feed, carriage return, vertical tab, form feed;
the further Unicode space characters are not in the modelled strings). -/
def isJSWhitespace (c : Char) : Bool :=
  c = ' ' || c = '\t' || c = '\n' || c = '\r' || c = '\x0b' || c = '\x0c'

/-- Strip leading and trailing JS whitespace. -/
def trimChars (cs : List Char) : List Char :=
  ((cs.dropWhile isJSWhitespace).reverse.dropWhile isJSWhitespace).reverse

/-- `DecimalDigits`: one or more ASCII digits. -/
def isDigitRun (cs : List Char) : Bool :=
  decide (cs ≠ []) && cs.all Char.isDigit

/-- The mantissa of a JS decimal literal: `digits`, `digits '.'`,
`digits '.' digits`, or `'.' digits`. -/
def isDecimalMantissa (cs : List Char) : Bool :=
  match cs.splitOn '.' with
  | [a] => isDigitRun a
  | [a, b] => (isDigitRun a && (decide (b = []) || isDigitRun b)) ||
      (decide (a = []) && isDigitRun b)
  | _ => false

/-- An `ExponentPart` with the leading `e`/`E` removed: an optional sign
then digits. -/
def isSignedDigits (cs : List Char) : Bool :=
  match cs with
  | '+' :: rest => isDigitRun rest
  | '-' :: rest => isDigitRun rest
  | _ => isDigitRun cs

/-- A JS unsigned decimal literal other than `Infinity`: a decimal mantissa
with an optional exponent part. -/
def isUnsignedDecimal (cs : List Char) : Bool :=
  match cs.span (fun c => !(c = 'e' || c = 'E')) with
  | (mant, []) => isDecimalMantissa mant
  | (mant, _ :: expTail) => isDecimalMantissa mant && isSignedDigits expTail

/-- A JS radix integer literal (`0x`/`0X` hex, `0o`/`0O` octal, `0b`/`0B`
binary), which `Number(string)` accepts unsigned only. -/
def isRadixLiteral (cs : List Char) : Bool :=
  match cs with
  | '0' :: x :: rest =>
    if x = 'x' || x = 'X' then
      decide (rest ≠ []) && rest.all (fun c =>
        c.isDigit || ('a' ≤ c && c ≤ 'f') || ('A' ≤ c && c ≤ 'F'))
    else if x = 'o' || x = 'O' then
      decide (rest ≠ []) && rest.all (fun c => '0' ≤ c && c ≤ '7')
    else if x = 'b' || x = 'B' then
      decide (rest ≠ []) && rest.all (fun c => c = '0' || c = '1')
    else false
  | _ => false

/-- underscore's `_.isFinite` on a string, i.e.
`isFinite(s) && !isNaN(parseFloat(s))`: after trimming, the string must be
a JS numeric literal denoting a finite value — a signed decimal literal or
an unsigned radix literal.  The empty string fails (`Number('') === 0` is
finite but `parseFloat('')` is `NaN`); `Infinity` forms fail `isFinite`;
every remaining finite-valued literal starts with a digit, sign or dot, so
its `parseFloat` is not `NaN`. -/
def isFiniteNumericString (s : String) : Bool :=
  match trimChars s.toList with
  | [] => false
  | '+' :: rest => isUnsignedDecimal rest
  | '-' :: rest => isUnsignedDecimal rest
  | cs => isUnsignedDecimal cs || isRadixLiteral cs

/-- underscore's `_.isFinite` (1.8.3:
`isFinite(obj) && !isNaN(parseFloat(obj))`): true on finite JS numbers and
on strings coercing to a finite number.  It is false on the other modelled
values: `undefined` coerces to `NaN`; `null` and booleans coerce finitely
but their `parseFloat` is `NaN`; functions and plain objects coerce to
`NaN` (arrays, whose coercion differs, are outside the modelled
universe). -/
def isFiniteJS : JSValue → Bool
  | .num finite _ => finite
  | .str s => isFiniteNumericString s
  | _ => false

/-- underscore's `_.isObject`: objects and functions. -/
def isObject : JSValue → Bool
  | .obj _ _ => true
  | .func _ => true
  | _ => false

/-- JS property access `config.type`: `undefined` when absent or when the
receiver has no properties in our model. -/
def propType : JSValue → JSValue
  | .obj t _ => t.getD .undefined
  | _ => .undefined

/-- `HEADER_TYPES` (line 15). -/
def HEADER_TYPES : List String := ["static", "fixed", "sticky"]

/-- The `header` record built by `_normalizeHeaderConfig`: a JS object with
optional `type` and `offset` properties (`none` = property absent). -/
structure Header : Type where
  type : Option JSValue := none
  offset : Option JSValue := none

/-- `_.extend(header, _.pick(config, 'type', 'offset'))` applied to the empty
`header` (line 68): copies whichever of the two properties are present. -/
def pickTypeOffset : JSValue → Header
  | .obj t o => { type := t, offset := o }
  | _ => {}

/-- `_.contains(HEADER_TYPES, header.type)` (line 71): `===`-membership, so
only a string can be contained in a list of strings. -/
def containsHeaderType : Option JSValue → Bool
  | some (.str s) => HEADER_TYPES.contains s
  | _ => false

/-- `header.type === 'sticky'` (line 75): strict JS equality of a value
against the string literal, true only on that exact string. -/
def typeIsSticky : Option JSValue → Bool
  | some (.str s) => s == "sticky"
  | _ => false

/-- underscore's `_.result(header, 'offset')` (line 75): read the property
(`undefined` when absent) and invoke it if it is a function. -/
def underscoreResult : Option JSValue → JSValue
  | some (.func r) => r
  | some v => v
  | none => .undefined

/-- Lines 60-69 of `_normalizeHeaderConfig`: the shape dispatch that builds
the initial `header` record. -/
def headerFromShape (config : JSValue) : Header :=
  if isString config then
    { type := some config }
  else if isFunction config || isFiniteJS config then
    { type := some (JSValue.str "sticky"), offset := some config }
  else if isObject config && isString (propType config) then
    pickTypeOffset config
  else
    {}

/-- Lines 71-73: collapse any `header.type` outside `HEADER_TYPES` to
`'static'`. -/
def headerWithValidType (config : JSValue) : Header :=
  let header := headerFromShape config
  if containsHeaderType header.type then header
  else { header with type := some (JSValue.str "static") }

/-- `_normalizeHeaderConfig` (lines 59-80): after the shape dispatch and the
type fallback, lines 75-77 default the offset to `0` when the type is
`'sticky'` and the offset does not resolve to a value accepted by
underscore's coercing `_.isFinite` (a finite number, or a string coercing
to one). -/
def normalizeHeaderConfig (config : JSValue) : Header :=
  let header := headerWithValidType config
  if typeIsSticky header.type && !isFiniteJS (underscoreResult header.offset) then
    { header with offset := some (JSValue.num true 0) }
  else
    header

/-! ### Sticky positioner: `_hookUpStickyHeader` (lines 221-287)

`adjustStickyHeader` (lines 230-281) is run on every scroll/resize/redraw
tick.  One tick is embedded as a pure function from the geometry sampled
during the tick (`TickInput`) and the CSS state left by previous ticks
(`StickyDom`, which also carries the closure variable `viewportSize` of
line 228) to the new CSS state. -/

/-- The `viewportSize` closure variable (line 228): the viewport size stored
at the last width recomputation. -/
structure ViewportSize : Type where
  width : ℚ
  height : ℚ
  deriving DecidableEq, Repr

/-- The values the tick samples from the DOM / the list view:
`visible` is `this.$el.is(':visible')` (line 231); `isWindow` is line 223;
`topVP`, `vpWidth`, `vpHeight` come from `metricsVP.outer` (line 235);
`offset` is the resolved `_.result(this._props.scrolling.header, 'offset', 0)`
(line 237); `topCur`/`leftCur` from `$tableContainer`'s bounding rect
(lines 238-239, 251); `headerHeight` is `$stickyHeader.height()` (line 245);
`tableHeight` is `$table.height()` (line 278); `containerWidth` is
`$tableContainer.width()` as measured at line 266 after both widths are
released to `'auto'`. -/
structure TickInput : Type where
  visible : Bool
  isWindow : Bool
  topVP : ℚ
  vpWidth : ℚ
  vpHeight : ℚ
  offset : ℚ
  topCur : ℚ
  leftCur : ℚ
  headerHeight : ℚ
  tableHeight : ℚ
  containerWidth : ℚ
  deriving DecidableEq, Repr

/-- The CSS state the tick mutates, recorded per jQuery `.css` target:
`none` in an `Option ℚ` field means the property is cleared/not set
(the `''` value in the source).  `viewportSize` is the closure variable. -/
structure StickyDom : Type where
  fillerDisplay : String
  fillerHeight : Option ℚ
  headerPosition : String
  headerTop : Option ℚ
  headerLeft : Option ℚ
  headerWidth : Option ℚ
  tableWidth : Option ℚ
  viewportSize : ViewportSize
  deriving DecidableEq, Repr

/-- `adjustStickyHeader` (lines 230-281).  In the window branch the `width`
written at line 264 (`'auto'`) is overwritten at line 271 when `style` has a
width, so only the net per-tick effect is recorded; `containerWidth` stands
for the measurement of line 266. -/
def adjustStickyHeader (inp : TickInput) (dom : StickyDom) : StickyDom :=
  if inp.visible = false then
    dom
  else if inp.isWindow then
    -- line 242
    let sticky : Bool := decide (inp.topCur < inp.topVP + inp.offset)
    -- lines 254-256
    let deltaWidth : ℚ := |inp.vpWidth - dom.viewportSize.width|
    let deltaHeight : ℚ := |inp.vpHeight - dom.viewportSize.height|
    let resize : Bool := decide (1 ≤ deltaWidth) || decide (1 ≤ deltaHeight)
    { fillerDisplay := if sticky then "block" else "none"
      fillerHeight := if sticky then some inp.headerHeight else none
      headerPosition := if sticky then "fixed" else "static"
      headerTop := if sticky then some (inp.topVP + inp.offset) else none
      headerLeft := if sticky then some inp.leftCur else none
      headerWidth := if resize then some inp.containerWidth else dom.headerWidth
      tableWidth := if resize then some inp.containerWidth else dom.tableWidth
      viewportSize :=
        if resize then { width := inp.vpWidth, height := inp.vpHeight }
        else dom.viewportSize }
  else
    -- lines 272-280: only the filler display and the header position/top
    -- are written in the nested-viewport branch
    { dom with
      fillerDisplay := "none"
      headerPosition := "relative"
      headerTop :=
        some (min (max (inp.topVP + inp.offset - inp.topCur) 0) inp.tableHeight) }

/-! ### Fixed-header width synchronizer: `_renderFixed`'s `didRedraw`
handler (lines 318-326).  DOM `clientWidth`/`offsetWidth` readings are
integral, hence `Int`. -/

/-- The two widths the handler writes: `this.$el.width(...)` (line 324) and
`this.$('.fixed-header').width(...)` (line 325). -/
structure FixedWidths : Type where
  elWidth : Int
  fixedHeaderWidth : Int
  deriving DecidableEq, Repr

/-- Lines 318-326: `widthViewport` is `.viewport`'s `clientWidth`,
`widthContainer` is `this.el.clientWidth`, `widthTable` is the body table's
`offsetWidth`. -/
def renderFixedDidRedraw (widthViewport widthContainer widthTable : Int) :
    FixedWidths :=
  let widthScrollbar := widthContainer - widthViewport
  { elWidth := widthTable + widthScrollbar
    fixedHeaderWidth := widthTable }

/-! ### `indexOfElement` (lines 384-390) -/

/-- A DOM node, as far as `indexOfElement` inspects it:
`closestRowIndex` is the sibling position (`$elTr.index()`) of the nearest
`tr` ancestor found within the rendered container by
`this._listView.$(el).closest('tr', this._listView.$container)`, or `none`
when that query matches nothing (`$elTr.length === 0`). -/
structure DomNode : Type where
  closestRowIndex : Option Nat
  deriving DecidableEq, Repr

/-- `indexOfElement` (lines 384-390); `indexFirst` is the list view's first
materialized index.  `none` models the `null` return. -/
def indexOfElement (node : DomNode) (indexFirst : Int) : Option Int :=
  match node.closestRowIndex with
  | some i => some ((i : Int) + indexFirst - 1)
  | none => none

/-! ### `set` (lines 143-177)

`this._state` holds the five `STATE_OPTIONS` keys (line 14); each can be
overwritten with `undefined` (modelled as `none`).  An incoming update
object may have each key absent (outer `none`), present with value
`undefined` (`some none`), or present with a value (`some (some v)`) —
`_.pick` copies every *present* key, while `isSet` (line 144) additionally
requires the value to be defined.  The column/row/event payloads are opaque
to this code, so they are type parameters. -/

/-- `this._state` (lines 35-41): the five `STATE_OPTIONS` keys. -/
structure TableState (Col Row Ev : Type) : Type where
  cols : Option (List Col)
  headRows : Option (List Row)
  bodyRows : Option (List Row)
  footRows : Option (List Row)
  events : Option Ev

/-- An argument to `set`: outer `Option` = key present in the object,
inner `Option` = the value (`none` = explicitly `undefined`). -/
structure SetArg (Col Row Ev : Type) : Type where
  cols : Option (Option (List Col)) := none
  headRows : Option (Option (List Row)) := none
  bodyRows : Option (Option (List Row)) := none
  footRows : Option (Option (List Row)) := none
  events : Option (Option Ev) := none

/-- The table view state `set` touches: `_state` plus the two pieces of
list-view state it can forward.  `listItems` models the
`{length, slice}` data source of lines 152-157 by the length together with
the captured `bodyRows` list (its `slice` is determined by that list);
`listEvents` is the events mapping last forwarded at line 161. -/
structure TableViewRec (Col Row Ev : Type) : Type where
  state : TableState Col Row Ev
  listItems : Option (Nat × List Row)
  listEvents : Option Ev

namespace TableView

/-- `set` (lines 143-177), restricted to its state effects.
Line 147 `_.extend(this._state, _.pick(state, STATE_OPTIONS))` copies every
present key, undefined values included.  Lines 149-158 rebuild the list
items only when `isSet('bodyRows')`, i.e. when the update's `bodyRows` is
present and defined — in which case the post-merge `this._state.bodyRows`
is exactly that value `b`.  Lines 160-162 forward `events` only when
`isSet('events')`. -/
def set {Col Row Ev : Type} (tv : TableViewRec Col Row Ev)
    (arg : SetArg Col Row Ev) : TableViewRec Col Row Ev :=
  let st : TableState Col Row Ev :=
    { cols := arg.cols.getD tv.state.cols
      headRows := arg.headRows.getD tv.state.headRows
      bodyRows := arg.bodyRows.getD tv.state.bodyRows
      footRows := arg.footRows.getD tv.state.footRows
      events := arg.events.getD tv.state.events }
  let listItems : Option (Nat × List Row) :=
    match arg.bodyRows with
    | some (some b) => some (b.length, b)
    | _ => tv.listItems
  let listEvents : Option Ev :=
    match arg.events with
    | some (some e) => some e
    | _ => tv.listEvents
  { state := st, listItems := listItems, listEvents := listEvents }

end TableView

/-- Example table view used to instantiate the generic `set` theorems on
concrete data. -/
def tvExample : TableViewRec Nat Nat Nat :=
  { state :=
      { cols := some [], headRows := some [], bodyRows := some []
        footRows := some [], events := none }
    listItems := none
    listEvents := none }

/-! ## Theorems -/

/-- Helper: a `header.type` contained in `HEADER_TYPES` is one of the three
type strings. -/
theorem containsHeaderType_cases {t : Option JSValue}
    (h : containsHeaderType t = true) :
    t = some (JSValue.str "static") ∨ t = some (JSValue.str "fixed") ∨
      t = some (JSValue.str "sticky") := by
  match t with
  | none => simp [containsHeaderType] at h
  | some JSValue.undefined => simp [containsHeaderType] at h
  | some JSValue.null => simp [containsHeaderType] at h
  | some (JSValue.bool b) => simp [containsHeaderType] at h
  | some (JSValue.num f v) => simp [containsHeaderType] at h
  | some (JSValue.func r) => simp [containsHeaderType] at h
  | some (JSValue.obj a b) => simp [containsHeaderType] at h
  | some (JSValue.str s) =>
    simp only [containsHeaderType] at h
    have h2 : s ∈ HEADER_TYPES := List.mem_of_elem_eq_true h
    simp only [HEADER_TYPES, List.mem_cons, List.not_mem_nil, or_false] at h2
    rcases h2 with h2 | h2 | h2 <;> subst h2 <;> simp

/-- Helper: the type fallback stage always yields one of the three type
strings. -/
theorem headerWithValidType_type_cases (c : JSValue) :
    (headerWithValidType c).type = some (JSValue.str "static") ∨
    (headerWithValidType c).type = some (JSValue.str "fixed") ∨
    (headerWithValidType c).type = some (JSValue.str "sticky") := by
  unfold headerWithValidType
  by_cases h : containsHeaderType (headerFromShape c).type = true
  · rw [if_pos h]
    exact containsHeaderType_cases h
  · rw [if_neg h]
    left
    rfl

/-- Helper: the offset-defaulting stage (lines 75-77) never changes the
type. -/
theorem normalizeHeaderConfig_type (c : JSValue) :
    (normalizeHeaderConfig c).type = (headerWithValidType c).type := by
  simp only [normalizeHeaderConfig]
  split <;> rfl

/-- C4: every header-config input that is not a string naming one of the
three header types, not a finite number, not a function, and not an object
whose string `type` field names one of the three, normalizes to
`type = 'static'`; and the normalized type is always exactly one of
`'static'`, `'fixed'`, `'sticky'`. -/
theorem normalize_type_fallback (c : JSValue)
    (hs : ∀ s, c = JSValue.str s → s ∉ HEADER_TYPES)
    (hn : ∀ q : ℚ, c ≠ JSValue.num true q)
    (hf : ∀ r, c ≠ JSValue.func r)
    (ho : ∀ t o s, c = JSValue.obj t o → t = some (JSValue.str s) →
      s ∉ HEADER_TYPES) :
    (normalizeHeaderConfig c).type = some (JSValue.str "static") ∧
    ∀ d, (normalizeHeaderConfig d).type = some (JSValue.str "static") ∨
      (normalizeHeaderConfig d).type = some (JSValue.str "fixed") ∨
      (normalizeHeaderConfig d).type = some (JSValue.str "sticky") := by
  constructor
  · rw [normalizeHeaderConfig_type]
    cases c with
    | undefined => rfl
    | null => rfl
    | bool b => rfl
    | num f v =>
      cases f with
      | true => exact absurd rfl (hn v)
      | false => rfl
    | str s =>
      have hc := hs s rfl
      simp [headerWithValidType, headerFromShape, isString, containsHeaderType, hc]
    | func r => exact absurd rfl (hf r)
    | obj t o =>
      match t with
      | none => rfl
      | some JSValue.undefined => rfl
      | some JSValue.null => rfl
      | some (JSValue.bool b) => rfl
      | some (JSValue.num f v) => rfl
      | some (JSValue.func r) => rfl
      | some (JSValue.obj a b) => rfl
      | some (JSValue.str s) =>
        have hc := ho (some (JSValue.str s)) o s rfl rfl
        simp [headerWithValidType, headerFromShape, isString, isFunction,
          isFiniteJS, isObject, propType, pickTypeOffset, containsHeaderType, hc]
  · intro d
    rw [normalizeHeaderConfig_type]
    exact headerWithValidType_type_cases d

/-- Witness for C4 at the concrete input `null`. -/
theorem normalize_type_fallback_witness :
    (normalizeHeaderConfig JSValue.null).type = some (JSValue.str "static") :=
  (normalize_type_fallback JSValue.null (fun _ h => nomatch h)
    (fun _ h => nomatch h) (fun _ h => nomatch h)
    (fun _ _ _ h => nomatch h)).1

/-- C1: on a window-viewport sticky tick, the header engages (filler shown
as `block`, header out of flow with `position: fixed` at
`top = metricsViewport.top + offset`) exactly when
`rectContainer.top < metricsViewport.top + offset`; at the boundary
`rectContainer.top = metricsViewport.top + offset` it is disengaged
(`position: static`, filler hidden). -/
theorem sticky_window_engagement (inp : TickInput) (dom : StickyDom)
    (hv : inp.visible = true) (hw : inp.isWindow = true) :
    ((adjustStickyHeader inp dom).headerPosition = "fixed" ∧
     (adjustStickyHeader inp dom).fillerDisplay = "block" ∧
     (adjustStickyHeader inp dom).headerTop = some (inp.topVP + inp.offset) ↔
      inp.topCur < inp.topVP + inp.offset) ∧
    (inp.topCur = inp.topVP + inp.offset →
      (adjustStickyHeader inp dom).headerPosition = "static" ∧
      (adjustStickyHeader inp dom).fillerDisplay = "none") := by
  constructor
  · by_cases hs : inp.topCur < inp.topVP + inp.offset
    · simp [adjustStickyHeader, hv, hw, hs]
    · simp [adjustStickyHeader, hv, hw, hs]
  · intro he
    have hs : ¬inp.topCur < inp.topVP + inp.offset := by
      rw [he]
      exact lt_irrefl _
    simp [adjustStickyHeader, hv, hw, hs]

/-- Witness for C1: with viewport top `10`, offset `5`, container top `8`
the header engages at top `15`; with container top `15` (the boundary) it
stays static. -/
theorem sticky_window_engagement_witness :
    ((adjustStickyHeader
        { visible := true, isWindow := true, topVP := 10, vpWidth := 0
          vpHeight := 0, offset := 5, topCur := 8, leftCur := 0
          headerHeight := 20, tableHeight := 100, containerWidth := 640 }
        { fillerDisplay := "none", fillerHeight := none
          headerPosition := "static", headerTop := none, headerLeft := none
          headerWidth := none, tableWidth := none
          viewportSize := { width := 0, height := 0 } }).headerPosition =
      "fixed") ∧
    ((adjustStickyHeader
        { visible := true, isWindow := true, topVP := 10, vpWidth := 0
          vpHeight := 0, offset := 5, topCur := 15, leftCur := 0
          headerHeight := 20, tableHeight := 100, containerWidth := 640 }
        { fillerDisplay := "none", fillerHeight := none
          headerPosition := "static", headerTop := none, headerLeft := none
          headerWidth := none, tableWidth := none
          viewportSize := { width := 0, height := 0 } }).headerPosition =
      "static") := by
  constructor
  · exact ((sticky_window_engagement _ _ rfl rfl).1.mpr (by norm_num)).1
  · exact ((sticky_window_engagement _ _ rfl rfl).2 (by norm_num)).1

/-- C2: on a nested-element-viewport sticky tick the header stays in
relative positioning with vertical offset
`clamp(metricsViewport.top + offset - rectContainer.top, 0, tableHeight)`,
and whatever the unclamped value is, the applied offset lies in
`[0, tableHeight]`. -/
theorem sticky_nested_clamp (inp : TickInput) (dom : StickyDom)
    (hv : inp.visible = true) (hw : inp.isWindow = false)
    (hh : 0 ≤ inp.tableHeight) :
    (adjustStickyHeader inp dom).headerPosition = "relative" ∧
    (adjustStickyHeader inp dom).headerTop =
      some (min (max (inp.topVP + inp.offset - inp.topCur) 0) inp.tableHeight) ∧
    ∀ t : ℚ, (adjustStickyHeader inp dom).headerTop = some t →
      0 ≤ t ∧ t ≤ inp.tableHeight := by
  have hpos : (adjustStickyHeader inp dom).headerPosition = "relative" := by
    simp [adjustStickyHeader, hv, hw]
  have htop : (adjustStickyHeader inp dom).headerTop =
      some (min (max (inp.topVP + inp.offset - inp.topCur) 0)
        inp.tableHeight) := by
    simp [adjustStickyHeader, hv, hw]
  refine ⟨hpos, htop, fun t ht => ?_⟩
  rw [htop] at ht
  obtain rfl := (Option.some.inj ht).symm
  exact ⟨le_min (le_max_right _ _) hh, min_le_right _ _⟩

/-- Witness for C2: an extreme negative unclamped value (`10 + 5 - 10000`)
is clamped to `0`, well inside `[0, 100]`. -/
theorem sticky_nested_clamp_witness :
    (adjustStickyHeader
        { visible := true, isWindow := false, topVP := 10, vpWidth := 0
          vpHeight := 0, offset := 5, topCur := 10000, leftCur := 0
          headerHeight := 20, tableHeight := 100, containerWidth := 640 }
        { fillerDisplay := "none", fillerHeight := none
          headerPosition := "static", headerTop := none, headerLeft := none
          headerWidth := none, tableWidth := none
          viewportSize := { width := 0, height := 0 } }).headerTop =
      some 0 ∧ ((0 : ℚ) ≤ 0 ∧ (0 : ℚ) ≤ 100) := by
  have h := sticky_nested_clamp
    { visible := true, isWindow := false, topVP := 10, vpWidth := 0
      vpHeight := 0, offset := 5, topCur := 10000, leftCur := 0
      headerHeight := 20, tableHeight := 100, containerWidth := 640 }
    { fillerDisplay := "none", fillerHeight := none
      headerPosition := "static", headerTop := none, headerLeft := none
      headerWidth := none, tableWidth := none
      viewportSize := { width := 0, height := 0 } }
    rfl rfl (by norm_num)
  refine ⟨?_, ?_⟩
  · rw [h.2.1]
    norm_num
  · have hb := h.2.2 (min (max ((10 : ℚ) + 5 - 10000) 0) 100) h.2.1
    constructor
    · exact le_refl 0
    · exact le_trans hb.1 (by norm_num)

/-- C7: on a window-viewport sticky tick, the header/table width is
recomputed and re-applied exactly when the sampled viewport size differs
from the stored `viewportSize` by at least `1` in width or height; on
recomputation the measured container width is applied identically to the
detached header and the body table and the stored size is updated, and
otherwise widths and stored size are left untouched. -/
theorem sticky_width_resync (inp : TickInput) (dom : StickyDom)
    (hv : inp.visible = true) (hw : inp.isWindow = true) :
    (1 ≤ |inp.vpWidth - dom.viewportSize.width| ∨
        1 ≤ |inp.vpHeight - dom.viewportSize.height| →
      (adjustStickyHeader inp dom).headerWidth = some inp.containerWidth ∧
      (adjustStickyHeader inp dom).tableWidth = some inp.containerWidth ∧
      (adjustStickyHeader inp dom).viewportSize =
        { width := inp.vpWidth, height := inp.vpHeight }) ∧
    (¬(1 ≤ |inp.vpWidth - dom.viewportSize.width| ∨
        1 ≤ |inp.vpHeight - dom.viewportSize.height|) →
      (adjustStickyHeader inp dom).headerWidth = dom.headerWidth ∧
      (adjustStickyHeader inp dom).tableWidth = dom.tableWidth ∧
      (adjustStickyHeader inp dom).viewportSize = dom.viewportSize) := by
  constructor
  · intro h
    rcases h with h | h <;> simp [adjustStickyHeader, hv, hw, h]
  · intro h
    push_neg at h
    have h1 : ¬1 ≤ |inp.vpWidth - dom.viewportSize.width| := not_le.mpr h.1
    have h2 : ¬1 ≤ |inp.vpHeight - dom.viewportSize.height| := not_le.mpr h.2
    simp [adjustStickyHeader, hv, hw, h1, h2]

/-- Witness for C7: growing the viewport width from `0` to `800` triggers a
recomputation that applies the measured container width `640` to both
header and table; re-sampling the same `800 x 600` size afterwards leaves
everything unchanged. -/
theorem sticky_width_resync_witness :
    ((adjustStickyHeader
        { visible := true, isWindow := true, topVP := 10, vpWidth := 800
          vpHeight := 600, offset := 5, topCur := 8, leftCur := 0
          headerHeight := 20, tableHeight := 100, containerWidth := 640 }
        { fillerDisplay := "none", fillerHeight := none
          headerPosition := "static", headerTop := none, headerLeft := none
          headerWidth := none, tableWidth := none
          viewportSize := { width := 0, height := 0 } }).headerWidth =
      some 640) ∧
    ((adjustStickyHeader
        { visible := true, isWindow := true, topVP := 10, vpWidth := 800
          vpHeight := 600, offset := 5, topCur := 8, leftCur := 0
          headerHeight := 20, tableHeight := 100, containerWidth := 640 }
        { fillerDisplay := "none", fillerHeight := none
          headerPosition := "static", headerTop := none, headerLeft := none
          headerWidth := some 640, tableWidth := some 640
          viewportSize := { width := 800, height := 600 } }).tableWidth =
      some 640) := by
  constructor
  · exact ((sticky_width_resync _ _ rfl rfl).1 (by left; norm_num)).1
  · exact ((sticky_width_resync _ _ rfl rfl).2 (by push_neg; norm_num)).2.1

/-- C9: a sticky tick on a non-visible root element is a complete no-op:
every style field and the stored viewport size are unchanged. -/
theorem sticky_invisible_noop (inp : TickInput) (dom : StickyDom)
    (h : inp.visible = false) : adjustStickyHeader inp dom = dom := by
  simp [adjustStickyHeader, h]

/-- Witness for C9 on a concrete non-visible tick. -/
theorem sticky_invisible_noop_witness :
    adjustStickyHeader
      { visible := false, isWindow := true, topVP := 10, vpWidth := 800
        vpHeight := 600, offset := 5, topCur := 8, leftCur := 0
        headerHeight := 20, tableHeight := 100, containerWidth := 640 }
      { fillerDisplay := "block", fillerHeight := some 20
        headerPosition := "fixed", headerTop := some 15, headerLeft := some 3
        headerWidth := some 640, tableWidth := some 640
        viewportSize := { width := 800, height := 600 } } =
    { fillerDisplay := "block", fillerHeight := some 20
      headerPosition := "fixed", headerTop := some 15, headerLeft := some 3
      headerWidth := some 640, tableWidth := some 640
      viewportSize := { width := 800, height := 600 } } :=
  sticky_invisible_noop _ _ rfl

/-- C3: after a body redraw in fixed mode, the fixed header's width equals
the body table's width, and the overall component width equals the table
width plus the scrollbar width (container client width minus viewport
client width). -/
theorem fixed_width_sync (widthViewport widthContainer widthTable : Int) :
    (renderFixedDidRedraw widthViewport widthContainer
        widthTable).fixedHeaderWidth = widthTable ∧
    (renderFixedDidRedraw widthViewport widthContainer widthTable).elWidth =
      widthTable + (widthContainer - widthViewport) :=
  ⟨rfl, rfl⟩

/-- C8: `indexOfElement` maps a node inside the `n`-th rendered row to
`n + indexFirst - 1` and a node outside any rendered row to `null`; it is
total, so the call never fails. -/
theorem indexOfElement_spec (node : DomNode) (indexFirst : Int) :
    (∀ n : Nat, node.closestRowIndex = some n →
      indexOfElement node indexFirst = some ((n : Int) + indexFirst - 1)) ∧
    (node.closestRowIndex = none →
      indexOfElement node indexFirst = none) := by
  constructor
  · intro n h
    simp [indexOfElement, h]
  · intro h
    simp [indexOfElement, h]

/-- Witness for C8: a node in row `2` with `indexFirst = 5` maps to `6`; a
node outside any row maps to `null`. -/
theorem indexOfElement_spec_witness :
    indexOfElement { closestRowIndex := some 2 } 5 = some 6 ∧
    indexOfElement { closestRowIndex := none } 5 = none := by
  constructor
  · have h := (indexOfElement_spec { closestRowIndex := some 2 } 5).1 2 rfl
    simpa using h
  · exact (indexOfElement_spec { closestRowIndex := none } 5).2 rfl

/-- C6: `set({cols: C}); set({bodyRows: B})` produces the same state as the
single call `set({cols: C, bodyRows: B})`, and keys absent from an update
retain their prior values (only present keys are merged). -/
theorem set_partial_update {Col Row Ev : Type}
    (tv : TableViewRec Col Row Ev) (C : List Col) (B : List Row) :
    TableView.set (TableView.set tv { cols := some (some C) })
        { bodyRows := some (some B) } =
      TableView.set tv
        { cols := some (some C), bodyRows := some (some B) } ∧
    ∀ arg : SetArg Col Row Ev,
      (arg.cols = none →
        (TableView.set tv arg).state.cols = tv.state.cols) ∧
      (arg.headRows = none →
        (TableView.set tv arg).state.headRows = tv.state.headRows) ∧
      (arg.bodyRows = none →
        (TableView.set tv arg).state.bodyRows = tv.state.bodyRows ∧
        (TableView.set tv arg).listItems = tv.listItems) ∧
      (arg.footRows = none →
        (TableView.set tv arg).state.footRows = tv.state.footRows) ∧
      (arg.events = none →
        (TableView.set tv arg).state.events = tv.state.events ∧
        (TableView.set tv arg).listEvents = tv.listEvents) := by
  refine ⟨rfl, fun arg => ⟨?_, ?_, ?_, ?_, ?_⟩⟩
  · intro h
    simp [TableView.set, h]
  · intro h
    simp [TableView.set, h]
  · intro h
    simp [TableView.set, h]
  · intro h
    simp [TableView.set, h]
  · intro h
    simp [TableView.set, h]

/-- Witness for C6 on concrete data: the two-step and one-step updates
agree, and an empty update retains the prior `cols`. -/
theorem set_partial_update_witness :
    (TableView.set (TableView.set tvExample { cols := some (some [1]) })
        { bodyRows := some (some [2, 3]) } =
      TableView.set tvExample
        { cols := some (some [1]), bodyRows := some (some [2, 3]) }) ∧
    (TableView.set tvExample {}).state.cols = tvExample.state.cols :=
  ⟨(set_partial_update tvExample [1] [2, 3]).1,
   ((set_partial_update tvExample [1] [2, 3]).2 {}).1 rfl⟩

/-- C10: a key explicitly bound to `undefined` in the update overwrites the
stored value with `undefined` (it does not retain its prior value), yet
counts as unset for the side conditions: the list items are not rebuilt for
`bodyRows` and the events mapping is not forwarded. -/
theorem set_explicit_undefined {Col Row Ev : Type}
    (tv : TableViewRec Col Row Ev) (arg : SetArg Col Row Ev) :
    (arg.cols = some none → (TableView.set tv arg).state.cols = none) ∧
    (arg.headRows = some none →
      (TableView.set tv arg).state.headRows = none) ∧
    (arg.bodyRows = some none →
      (TableView.set tv arg).state.bodyRows = none ∧
      (TableView.set tv arg).listItems = tv.listItems) ∧
    (arg.footRows = some none →
      (TableView.set tv arg).state.footRows = none) ∧
    (arg.events = some none →
      (TableView.set tv arg).state.events = none ∧
      (TableView.set tv arg).listEvents = tv.listEvents) := by
  refine ⟨?_, ?_, ?_, ?_, ?_⟩ <;> intro h <;> simp [TableView.set, h]

/-- Witness for C10: updating `tvExample` with every key explicitly
`undefined` clears the stored `bodyRows` yet leaves the list items and
events untouched. -/
theorem set_explicit_undefined_witness :
    (TableView.set tvExample
        { cols := some none, headRows := some none, bodyRows := some none
          footRows := some none, events := some none }).state.bodyRows =
      none ∧
    (TableView.set tvExample
        { cols := some none, headRows := some none, bodyRows := some none
          footRows := some none, events := some none }).listItems =
      tvExample.listItems :=
  (set_explicit_undefined tvExample
    { cols := some none, headRows := some none, bodyRows := some none
      footRows := some none, events := some none }).2.2.1 rfl

end ProjectionGrid
